import Mathlib

/-!
Shallow embedding of the health-check core of `src/electron/main.ts`
(mcp-manager): command availability check, port inference, TCP liveness
probe, and the `ping-mcp-server` orchestrator.

JavaScript numbers produced by `parseInt(_, 10)` are modelled as
`Option Int`, `none` standing for `NaN`.  The two awaited effects of the
orchestrator (child-process availability check, TCP probe) are modelled by
passing their outcome in as a value; a possible runtime fault is an
`Except.error` carrying the fault's message.  The socket's event handling
is modelled as a fold over the sequence of events delivered by the
single-threaded event loop.
-/

namespace MCPManager

/-- A JavaScript number as produced by `parseInt(s, 10)`: an integer, or
`NaN` (modelled as `none`). -/
abbrev JSInt := Option Int

/-- JavaScript truthiness of such a number: `0` and `NaN` are falsy,
every other integer is truthy. -/
def jsTruthy : JSInt → Bool
  | none => false
  | some v => v != 0

/-- ASCII whitespace skipped by JavaScript `parseInt` before the sign. -/
def jsWhitespace (c : Char) : Bool :=
  c = ' ' || c = '\t' || c = '\n' || c = '\r' || c = '\x0b' || c = '\x0c'

/-- Value of a decimal digit character. -/
def digitVal (c : Char) : Nat := c.toNat - '0'.toNat

/-- Value of a list of decimal digit characters, most significant first. -/
def digitsVal (cs : List Char) : Nat :=
  cs.foldl (fun acc c => acc * 10 + digitVal c) 0

/-- `parseInt(s, 10)` on an exploded string: skip leading whitespace, read
an optional sign, then the longest prefix of decimal digits; `NaN` (here
`none`) when no digit follows. -/
def parseInt10Core (cs0 : List Char) : JSInt :=
  let cs := cs0.dropWhile jsWhitespace
  let signRest : Int × List Char :=
    match cs with
    | '-' :: rest => (-1, rest)
    | '+' :: rest => (1, rest)
    | _ => (1, cs)
  let ds := signRest.2.takeWhile Char.isDigit
  if ds.isEmpty then none
  else some (signRest.1 * (digitsVal ds : Int))

/-- JavaScript `parseInt(s, 10)`. -/
def parseInt10 (s : String) : JSInt := parseInt10Core s.toList

/-- JavaScript `haystack.includes(needle)` on exploded strings: the needle
occurs as a contiguous sublist at some position. -/
def listIncludes (needle : List Char) : List Char → Bool
  | [] => needle.isEmpty
  | c :: rest => needle.isPrefixOf (c :: rest) || listIncludes needle rest

/-- JavaScript `s.includes(pat)`. -/
def strIncludes (s pat : String) : Bool := listIncludes pat.toList s.toList

/-- JavaScript `s.split(c)` for a single-character separator: every
maximal separator-free run, keeping empty runs. -/
def splitOnChar (c : Char) : List Char → List (List Char)
  | [] => [[]]
  | x :: xs =>
    let r := splitOnChar c xs
    if x = c then [] :: r
    else
      match r with
      | [] => [[x]]
      | y :: ys => (x :: y) :: ys

/-- A server definition as consumed by the health check: the launch
command, the optional argument array, and the value of `env.MCP_PORT`
when the environment is present and carries that key (`none` covers both
an absent environment and an environment without the key). -/
structure ServerDefinition where
  command : String
  args : Option (List String)
  envMCPPort : Option String
deriving Repr, DecidableEq

/-- The result shape returned by the `ping-mcp-server` handler. -/
structure HealthCheckResult where
  success : Bool
  error : Option String
deriving Repr, DecidableEq

/-- `let port = 0; if (server.env && server.env.MCP_PORT) port =
parseInt(server.env.MCP_PORT, 10);` — the port variable after the
environment rule.  The guard is JavaScript truthiness of the value, so an
empty string leaves the initial `0` in place. -/
def portAfterEnv (server : ServerDefinition) : JSInt :=
  match server.envMCPPort with
  | none => some 0
  | some s => if s = "" then some 0 else parseInt10 s

/-- `server.args[i].split('=')[1]` fed to `parseInt`: the second piece of
the split, `parseInt(undefined, 10) = NaN` when there is no second
piece. -/
def portEqValue (a : String) : JSInt :=
  match (splitOnChar '=' a.toList).get? 1 with
  | some cs => parseInt10Core cs
  | none => none

/-- The argument-scanning loop of `checkMCPServerConnection`: walk the
array in order; on the first element containing the substring `--port=`,
or the first element equal to `--port` that is not last, parse the
corresponding value and `break` (returning `some` of the parsed value,
valid or not); `none` when the loop finishes without a match. -/
def scanArgs : List String → Option JSInt
  | [] => none
  | a :: rest =>
    if strIncludes a "--port=" then some (portEqValue a)
    else
      match rest with
      | b :: _ => if a = "--port" then some (parseInt10 b) else scanArgs rest
      | [] => scanArgs rest

/-- `if (!port || isNaN(port)) port = 8080;` — the fallback replacing a
zero or `NaN` port with 8080. -/
def applyDefault : JSInt → Int
  | none => 8080
  | some v => if v = 0 then 8080 else v

/-- The full port-inference block of `checkMCPServerConnection`:
environment rule, then — only when the resulting port is falsy and the
args field is an array — the argument scan, then the 8080 fallback. -/
def inferPort (server : ServerDefinition) : Int :=
  let p0 := portAfterEnv server
  let p1 :=
    if jsTruthy p0 then p0
    else
      match server.args with
      | some args =>
        match scanArgs args with
        | some p => p
        | none => p0
      | none => p0
  applyDefault p1

/-- The three socket events that can settle the probe. -/
inductive ProbeEvent
  | connect
  | timeout
  | sockError
deriving Repr, DecidableEq

/-- The boolean the handler of each event passes to `resolve`. -/
def eventValue : ProbeEvent → Bool
  | .connect => true
  | .timeout => false
  | .sockError => false

/-- State of one probe execution: the promise's settled value, if any,
and whether `socket.destroy()` has run. -/
structure ProbeState where
  resolved : Option Bool
  destroyed : Bool
deriving Repr, DecidableEq

/-- `socket.destroy()`: idempotent. -/
def destroyStep (s : ProbeState) : ProbeState := { s with destroyed := true }

/-- `resolve(v)`: settles the promise on first call, later calls are
no-ops. -/
def resolveStep (v : Bool) (s : ProbeState) : ProbeState :=
  match s.resolved with
  | some _ => s
  | none => { s with resolved := some v }

/-- One event handler of the probe: `socket.destroy(); resolve(v);`. -/
def handleEvent (s : ProbeState) (e : ProbeEvent) : ProbeState :=
  resolveStep (eventValue e) (destroyStep s)

/-- A whole probe execution over the sequence of events the event loop
delivers, in order. -/
def runProbe (events : List ProbeEvent) : ProbeState :=
  events.foldl handleEvent ⟨none, false⟩

/-- `checkMCPServerConnection`: infer the port, then attempt
`socket.connect(port, 'localhost')`.  A port outside `[0, 65535]` makes
`connect` throw synchronously; the surrounding `try` catches it and
resolves `false`.  Otherwise the 1000 ms timeout guarantees that exactly
one of connect/timeout/error fires first; `ev` is that winning event and
its handler's value settles the promise. -/
def checkMCPServerConnection (server : ServerDefinition) (ev : ProbeEvent) : Bool :=
  let port := inferPort server
  if port < 0 ∨ 65535 < port then false
  else eventValue ev

/-- `checkCommandAvailability`: resolves `false` exactly when the
`which`/`where` child process reports an error (the command is not
resolvable on the host), `true` otherwise. -/
def checkCommandAvailability (execError : Option String) : Bool :=
  match execError with
  | some _ => false
  | none => true

/-- The `try` body of the `ping-mcp-server` handler.  The two awaited
effects are passed in as outcomes; a runtime fault at either suspension
point is an `Except.error` carrying the fault's message. -/
def pingBody (avail probe : Except String Bool) : Except String HealthCheckResult := do
  let isCommandAvailable ← avail
  if !isCommandAvailable then
    return { success := false, error := some "Command not available" }
  let pingSuccess ← probe
  return { success := pingSuccess, error := none }

/-- The `ping-mcp-server` handler: run the `try` body; the `catch` arm
reshapes any fault into `{success: false, error: <message>}`. -/
def pingServer (avail probe : Except String Bool) : HealthCheckResult :=
  match pingBody avail probe with
  | .ok r => r
  | .error e => { success := false, error := some e }

/-! ## Helper lemmas -/

/-- A falsy port (zero or `NaN`) is replaced by the 8080 fallback. -/
lemma applyDefault_falsy (p : JSInt) (h : jsTruthy p = false) : applyDefault p = 8080 := by
  cases p with
  | none => rfl
  | some v =>
    simp only [jsTruthy, bne_eq_false_iff_eq] at h
    simp [applyDefault, h]

/-- When the environment rule and every argument-scan outcome are falsy,
port inference lands on 8080. -/
lemma inferPort_of_falsy (server : ServerDefinition)
    (h1 : jsTruthy (portAfterEnv server) = false)
    (h2 : ∀ args p, server.args = some args → scanArgs args = some p → jsTruthy p = false) :
    inferPort server = 8080 := by
  unfold inferPort
  simp only [h1, Bool.false_eq_true, if_false]
  split
  · rename_i args heqargs
    split
    · rename_i p heqscan
      exact applyDefault_falsy _ (h2 args p heqargs heqscan)
    · exact applyDefault_falsy _ h1
  · exact applyDefault_falsy _ h1

/-- An element that matches neither scan condition is skipped. -/
lemma scanArgs_skip (a : String) (rest : List String)
    (h1 : strIncludes a "--port=" = false) (h2 : a ≠ "--port") :
    scanArgs (a :: rest) = scanArgs rest := by
  cases rest with
  | nil => simp [scanArgs, h1]
  | cons b t => simp [scanArgs, h1, h2]

/-- A list of elements matching neither scan condition, followed by a
trailing `"--port"` with no value after it, yields no match. -/
lemma scanArgs_trailing_port (l : List String)
    (hl : ∀ a ∈ l, strIncludes a "--port=" = false ∧ a ≠ "--port") :
    scanArgs (l ++ ["--port"]) = none := by
  induction l with
  | nil => decide
  | cons a t ih =>
    rw [List.cons_append,
      scanArgs_skip a _ (hl a (List.mem_cons_self a t)).1 (hl a (List.mem_cons_self a t)).2]
    exact ih (fun x hx => hl x (List.mem_cons_of_mem a hx))

/-- `resolve` never touches the destroyed flag. -/
lemma resolveStep_destroyed (v : Bool) (s : ProbeState) :
    (resolveStep v s).destroyed = s.destroyed := by
  cases s with
  | mk r d => cases r <;> rfl

/-- Once the promise is settled and the socket destroyed, every further
event is a no-op. -/
lemma runProbe_settled (v : Bool) (evs : List ProbeEvent) :
    evs.foldl handleEvent ⟨some v, true⟩ = ⟨some v, true⟩ := by
  induction evs with
  | nil => rfl
  | cons e t ih => rw [List.foldl_cons, show handleEvent ⟨some v, true⟩ e = ⟨some v, true⟩ from rfl, ih]

/-! ## Claims -/

/-- Claim C1: for every server definition whose command is not resolvable on
the host (the `which`/`where` child process reports an error), `pingServer`
returns exactly `{success: false, error: "Command not available"}`, and the
result does not depend on the TCP probe in any way — the probe is never
attempted. -/
theorem ping_unavailable_no_probe (err : String) (probe probe' : Except String Bool) :
    pingServer (Except.ok (checkCommandAvailability (some err))) probe
      = { success := false, error := some "Command not available" } ∧
    pingServer (Except.ok (checkCommandAvailability (some err))) probe
      = pingServer (Except.ok (checkCommandAvailability (some err))) probe' :=
  ⟨rfl, rfl⟩

/-- Witness for C1 at a concrete unresolvable command. -/
theorem ping_unavailable_no_probe_witness :
    pingServer (Except.ok (checkCommandAvailability (some "not found")))
      (Except.ok true) = { success := false, error := some "Command not available" } :=
  (ping_unavailable_no_probe "not found" (Except.ok true) (Except.ok false)).1

/-- Claim C2, counterexample: `env.MCP_PORT = "0"` parses as the base-10
integer `0`, yet the inferred port is taken from the args (`1111`), not from
the environment — so "parses as a base-10 integer" alone does not guarantee
precedence. -/
theorem env_zero_counterexample :
    parseInt10 "0" = some 0 ∧
    inferPort ⟨"node", some ["--port=1111"], some "0"⟩ = 1111 ∧
    inferPort ⟨"node", some ["--port=1111"], some "0"⟩ ≠ 0 := by
  decide

/-- Claim C2, amended: for every server definition whose `env.MCP_PORT`
parses as a nonzero base-10 integer, the inferred port is that integer,
whatever the args contain (in particular `MCP_PORT = "9999"` beats
`--port=1111`). -/
theorem env_nonzero_precedence (server : ServerDefinition) (s : String) (v : Int)
    (hs : server.envMCPPort = some s) (hp : parseInt10 s = some v) (hv : v ≠ 0) :
    inferPort server = v := by
  have hse : ¬ s = "" := by
    intro h
    subst h
    rw [show parseInt10 "" = none from rfl] at hp
    exact Option.noConfusion hp
  have hpe : portAfterEnv server = some v := by
    unfold portAfterEnv
    rw [hs]
    show (if s = "" then some 0 else parseInt10 s) = some v
    rw [if_neg hse]
    exact hp
  have ht : jsTruthy (some v) = true := by
    simp [jsTruthy, hv]
  simp only [inferPort, hpe]
  rw [ht]
  simp [applyDefault, hv]

/-- Witness for C2's amended theorem at `MCP_PORT = "9999"`,
`args = ["--port=1111"]`. -/
theorem env_nonzero_precedence_witness :
    inferPort ⟨"node", some ["--port=1111"], some "9999"⟩ = 9999 :=
  env_nonzero_precedence ⟨"node", some ["--port=1111"], some "9999"⟩ "9999" 9999
    rfl (by decide) (by decide)

/-- Claim C3, counterexample: with `args = ["--port", "x", "--port=7"]` the
scan stops at the first (invalid) specifier and the inferred port is the
8080 default, not 7. -/
theorem scan_stop_counterexample :
    inferPort ⟨"node", some ["--port", "x", "--port=7"], none⟩ = 8080 ∧
    inferPort ⟨"node", some ["--port", "x", "--port=7"], none⟩ ≠ 7 := by
  decide

/-- Claim C3, amended: the scan breaks at the first element matching a
port-specifier shape regardless of whether its value parses — the result of
a `--port <next>` match is `parseInt` of the next element, the elements after
it are never examined, and an invalid parse then falls to the 8080 default. -/
theorem scan_breaks_at_first_match (b : String) (rest rest' : List String) :
    scanArgs ("--port" :: b :: rest) = some (parseInt10 b) ∧
    scanArgs ("--port" :: b :: rest) = scanArgs ("--port" :: b :: rest') ∧
    inferPort ⟨"node", some ["--port", "x", "--port=7"], none⟩ = 8080 := by
  refine ⟨?_, ?_, by decide⟩ <;>
    simp [scanArgs, show strIncludes "--port" "--port=" = false from by decide]

/-- Witness for C3's amended theorem: the scan result after `"--port"` is
the parse of the very next element, valid or not. -/
theorem scan_breaks_at_first_match_witness :
    scanArgs ["--port", "x"] = some (parseInt10 "x") :=
  (scan_breaks_at_first_match "x" [] []).1

/-- Claim C4: when neither the environment rule nor the argument scan
produces a truthy (nonzero, non-`NaN`) port, the inferred port is exactly
8080. -/
theorem inferPort_default_8080 (server : ServerDefinition)
    (h1 : jsTruthy (portAfterEnv server) = false)
    (h2 : ∀ args p, server.args = some args → scanArgs args = some p → jsTruthy p = false) :
    inferPort server = 8080 :=
  inferPort_of_falsy server h1 h2

/-- Witness for C4 at a definition with no port-bearing env or args. -/
theorem inferPort_default_8080_witness :
    inferPort ⟨"node", none, none⟩ = 8080 :=
  inferPort_default_8080 ⟨"node", none, none⟩ (by decide)
    (fun _ _ ha _ => Option.noConfusion ha)

/-- Claim C5: `pingServer` is a total function into `HealthCheckResult`
(no exception escapes by construction), and a fault raised at either
suspension point — the availability check or the probe — is reshaped into
`{success: false, error: <the fault's message>}`. -/
theorem ping_fault_as_data (avail probe : Except String Bool) (m : String) :
    (avail = Except.error m → pingServer avail probe = ⟨false, some m⟩) ∧
    (avail = Except.ok true → probe = Except.error m →
      pingServer avail probe = ⟨false, some m⟩) := by
  constructor
  · intro h
    subst h
    rfl
  · intro h1 h2
    subst h1
    subst h2
    rfl

/-- Witness for C5 with a concrete fault at each suspension point. -/
theorem ping_fault_as_data_witness :
    pingServer (Except.error "boom") (Except.ok true) = ⟨false, some "boom"⟩ ∧
    pingServer (Except.ok true) (Except.error "boom") = ⟨false, some "boom"⟩ :=
  ⟨(ping_fault_as_data (Except.error "boom") (Except.ok true) "boom").1 rfl,
   (ping_fault_as_data (Except.ok true) (Except.error "boom") "boom").2 rfl rfl⟩

/-- Claim C6: every result of `pingServer` carries an error message only
when `success` is false, and the plain unreachable-port outcome (command
available, probe returned false) is exactly `{success: false}` with no
error field — so it stays distinguishable from the command-missing
outcome. -/
theorem result_shape_invariant :
    (∀ avail probe : Except String Bool,
      (pingServer avail probe).error.isSome = true →
      (pingServer avail probe).success = false) ∧
    (∀ (server : ServerDefinition) (ev : ProbeEvent),
      checkMCPServerConnection server ev = false →
      pingServer (Except.ok (checkCommandAvailability none))
        (Except.ok (checkMCPServerConnection server ev)) = ⟨false, none⟩) := by
  constructor
  · intro avail probe h
    match avail with
    | .error m => rfl
    | .ok false => rfl
    | .ok true =>
      match probe with
      | .error m => rfl
      | .ok b => exact Bool.noConfusion h
  · intro server ev h
    rw [h]
    rfl

/-- Witness for C6: a missing-command result has `success = false`, and a
concrete timed-out probe yields `{success: false}` with no error field. -/
theorem result_shape_invariant_witness :
    (pingServer (Except.ok false) (Except.ok true)).success = false ∧
    pingServer (Except.ok (checkCommandAvailability none))
      (Except.ok (checkMCPServerConnection ⟨"node", none, none⟩ ProbeEvent.timeout))
      = ⟨false, none⟩ :=
  ⟨result_shape_invariant.1 (Except.ok false) (Except.ok true) rfl,
   result_shape_invariant.2 ⟨"node", none, none⟩ ProbeEvent.timeout (by decide)⟩

/-- Claim C7, counterexample: `"--my-port=5"` does not contain the
substring `"--port="` (only a single dash precedes `port`), so that args
element is not treated as a port specifier and the inferred port is 8080,
not 5. -/
theorem substring_example_counterexample :
    strIncludes "--my-port=5" "--port=" = false ∧
    inferPort ⟨"node", some ["--my-port=5"], none⟩ = 8080 ∧
    inferPort ⟨"node", some ["--my-port=5"], none⟩ ≠ 5 := by
  decide

/-- Claim C7, amended: any args element containing `"--port="` anywhere in
it (not only as an exact token) is treated as a port specifier — the scan
stops there with `parseInt` of the piece after the first `=` — and e.g.
`args = ["foo--port=5"]` false-positives and infers port 5. -/
theorem substring_match_rule (a : String) (rest : List String)
    (h : strIncludes a "--port=" = true) :
    scanArgs (a :: rest) = some (portEqValue a) ∧
    inferPort ⟨"node", some ["foo--port=5"], none⟩ = 5 := by
  refine ⟨?_, by decide⟩
  simp [scanArgs, h]

/-- Witness for C7's amended theorem at the false-positive element. -/
theorem substring_match_rule_witness :
    scanArgs ["foo--port=5"] = some (portEqValue "foo--port=5") :=
  (substring_match_rule "foo--port=5" [] (by decide)).1

/-- Claim C8: args ending in a trailing `"--port"` with no following value
(and no earlier port source) never raise — the two-token rule is skipped
because there is no next element, the scan finds nothing, and port
inference falls through to the 8080 default. -/
theorem trailing_port_no_raise (server : ServerDefinition) (l : List String)
    (henv : jsTruthy (portAfterEnv server) = false)
    (hargs : server.args = some (l ++ ["--port"]))
    (hl : ∀ a ∈ l, strIncludes a "--port=" = false ∧ a ≠ "--port") :
    inferPort server = 8080 := by
  have hscan : scanArgs (l ++ ["--port"]) = none := scanArgs_trailing_port l hl
  refine inferPort_of_falsy server henv ?_
  intro args p ha hp
  rw [hargs] at ha
  injection ha with ha
  subst ha
  rw [hscan] at hp
  exact Option.noConfusion hp

/-- Witness for C8 at `args = ["--port"]`. -/
theorem trailing_port_no_raise_witness :
    inferPort ⟨"node", some ["--port"], none⟩ = 8080 :=
  trailing_port_no_raise ⟨"node", some ["--port"], none⟩ [] (by decide) rfl
    (fun a ha => absurd ha (List.not_mem_nil a))

/-- Claim C9: in every probe execution the first delivered event settles the
promise with its value, the socket ends destroyed, every later event is a
complete no-op (the final state equals the state after the first event
alone), and along every path — including the instant between
`socket.destroy()` and `resolve` inside a handler — a settled promise
implies an already-destroyed socket. -/
theorem probe_single_resolution (e : ProbeEvent) (rest : List ProbeEvent) :
    (runProbe (e :: rest)).resolved = some (eventValue e) ∧
    (runProbe (e :: rest)).destroyed = true ∧
    runProbe (e :: rest) = runProbe [e] ∧
    (∀ s : ProbeState, (s.resolved.isSome = true → s.destroyed = true) →
      ((destroyStep s).resolved.isSome = true → (destroyStep s).destroyed = true) ∧
      (∀ e2 : ProbeEvent, (handleEvent s e2).resolved.isSome = true →
        (handleEvent s e2).destroyed = true)) := by
  have hrun : runProbe (e :: rest) = ⟨some (eventValue e), true⟩ := by
    show (e :: rest).foldl handleEvent ⟨none, false⟩ = _
    rw [List.foldl_cons, show handleEvent ⟨none, false⟩ e = ⟨some (eventValue e), true⟩ from rfl,
      runProbe_settled]
  refine ⟨by rw [hrun], by rw [hrun], by rw [hrun]; rfl, ?_⟩
  intro s _
  refine ⟨fun _ => rfl, fun e2 _ => ?_⟩
  show (resolveStep (eventValue e2) (destroyStep s)).destroyed = true
  rw [resolveStep_destroyed]
  rfl

/-- Witness for C9: a connect that wins against a later timeout resolves
`true`, and a handler run from the initial state leaves the socket
destroyed. -/
theorem probe_single_resolution_witness :
    (runProbe [ProbeEvent.connect, ProbeEvent.timeout]).resolved = some true ∧
    (handleEvent ⟨none, false⟩ ProbeEvent.timeout).destroyed = true :=
  ⟨(probe_single_resolution ProbeEvent.connect [ProbeEvent.timeout]).1,
   ((probe_single_resolution ProbeEvent.connect [ProbeEvent.timeout]).2.2.2
      ⟨none, false⟩ (fun h => Bool.noConfusion h)).2 ProbeEvent.timeout rfl⟩

/-- Claim C10: a negative inferred port is not replaced by the 8080
fallback (only zero or `NaN` trigger it), so with `env.MCP_PORT = "-1"` the
probe is attempted on port `-1`, the synchronous connect error is caught
inside the probe, and the connection check resolves `false` without
throwing. -/
theorem negative_port_kept (p : Int) (server : ServerDefinition)
    (hp : p < 0) (hs : server.envMCPPort = some "-1") :
    applyDefault (some p) = p ∧
    inferPort server = -1 ∧
    ∀ ev : ProbeEvent, checkMCPServerConnection server ev = false := by
  have hap : ∀ q : Int, q < 0 → applyDefault (some q) = q := by
    intro q hq
    simp [applyDefault, show q ≠ 0 from by omega]
  have hpe : portAfterEnv server = some (-1) := by
    unfold portAfterEnv
    rw [hs]
    decide
  have hip : inferPort server = -1 := by
    simp only [inferPort, hpe]
    rw [show jsTruthy (some (-1)) = true from by decide]
    simp only [if_pos rfl]
    exact hap (-1) (by decide)
  refine ⟨hap p hp, hip, ?_⟩
  intro ev
  simp only [checkMCPServerConnection, hip]
  rw [if_pos (Or.inl (by decide))]

/-- Witness for C10 at `env.MCP_PORT = "-1"`. -/
theorem negative_port_kept_witness :
    applyDefault (some (-1)) = -1 ∧
    inferPort ⟨"node", none, some "-1"⟩ = -1 ∧
    checkMCPServerConnection ⟨"node", none, some "-1"⟩ ProbeEvent.connect = false :=
  ⟨(negative_port_kept (-1) ⟨"node", none, some "-1"⟩ (by decide) rfl).1,
   (negative_port_kept (-1) ⟨"node", none, some "-1"⟩ (by decide) rfl).2.1,
   (negative_port_kept (-1) ⟨"node", none, some "-1"⟩ (by decide) rfl).2.2 ProbeEvent.connect⟩

end MCPManager
